import Mathlib

/-!
Verification of the hytale-server-watcher specification against the
repository's code.  The repository's `src/` tree holds the presentation
layer (the Qwik web UI plus the Tauri command/event bridge in
`web-ui/src/lib`); the supervising core (LogClassifier,
RestartPolicyEngine, ResourceMonitor, the schedulers and the
`delete_backup` command implementation) lives in the Tauri backend, which
is not part of `src/`.  Components missing from `src/` are therefore
modelled from the specification text and carry a doc comment starting
`Modelled from the spec:`; everything else is translated directly from the
TypeScript sources, with the original file noted definition by
definition.
-/

namespace Watcher

/-- Severity levels of a classified output line (`LogLevel` in
`web-ui/src/lib/types.ts`: critical, error, warning, info). -/
inductive Severity
  | critical
  | error
  | warning
  | info
  deriving DecidableEq, Repr

/-- Origin of a log entry (`LogSource` in `web-ui/src/lib/types.ts`:
server stdout, watcher-generated, child stderr). -/
inductive Source
  | server
  | watcher
  | stderr
  deriving DecidableEq, Repr

/-- A log entry as in `LogEntry` of `web-ui/src/lib/types.ts`:
timestamp, level, source, message. -/
structure LogEntry where
  timestamp : String
  level : Severity
  source : Source
  message : String
  deriving DecidableEq, Repr

/-- The three ordered pattern lists of the `error_patterns` config section
(spec section 3): `critical`, `errors`, `warnings`. -/
structure ErrorPatterns where
  critical : List String
  errors : List String
  warnings : List String
  deriving Repr

/-- Case-insensitive substring test: does `line` contain `pat`?  Both are
lowercased character by character and the pattern is searched for at every
offset of the line (plain substring scan, as the spec's design notes
require). -/
def containsCI (line pat : String) : Bool :=
  let l := line.data.map Char.toLower
  let p := pat.data.map Char.toLower
  (List.range (l.length + 1)).any (fun i => p.isPrefixOf (l.drop i))

/-- Modelled from the spec: the LogClassifier (spec section 4.1), absent
from `src/`.  `classify(line)` checks, in order, whether the line contains
(case-insensitive substring match) any pattern in `critical`, then
`errors`, then `warnings`; the first list with a match wins; no match
yields `info`. -/
def classify (pats : ErrorPatterns) (line : String) : Severity :=
  if pats.critical.any (containsCI line) then .critical
  else if pats.errors.any (containsCI line) then .error
  else if pats.warnings.any (containsCI line) then .warning
  else .info

/-- Process status values (`ServerStatus` in `web-ui/src/lib/types.ts` and
spec section 4.2): starting, running, stopping, stopped, restarting,
error. -/
inductive Status
  | starting
  | running
  | stopping
  | stopped
  | restarting
  | error
  deriving DecidableEq, Repr

/-- The `restart_on` config section (spec section 3): four independent
booleans — restart on a critical line, on an error line, on a warning
line, on unexpected process exit. -/
structure RestartOn where
  critical : Bool
  error : Bool
  warning : Bool
  process_exit : Bool
  deriving DecidableEq, Repr

/-- The slice of the configuration the restart-policy engine consults:
the optional `max_restarts` cap (unbounded if absent) and the
`restart_on` flags. -/
structure EngineConfig where
  max_restarts : Option Nat
  restart_on : RestartOn
  deriving DecidableEq, Repr

/-- The engine-owned part of ProcessState (spec section 3): the current
status and the monotone restart counter. -/
structure EngineState where
  status : Status
  restartCount : Nat
  deriving DecidableEq, Repr

/-- Events consumed by the restart-policy state machine (spec sections
4.2-4.3): a classified output line, an unexpected child exit, explicit
user commands, the hourly auto-restart countdown reaching zero, spawn
outcome reports, and completion reports for the stop and restart
cycles. -/
inductive EngineEvent
  | logLine (sev : Severity)
  | processExit
  | startCmd
  | stopCmd
  | restartCmd
  | autoRestartDue
  | spawnOk
  | spawnFailed
  | stopDone
  | restartCycleDone
  deriving DecidableEq, Repr

/-- Whether an event is a triggering condition under the `restart_on`
flags (spec section 4.3: critical/error/warning log line, or unexpected
process exit, each gated by its own flag; `info` lines never trigger). -/
def triggersRestart (ro : RestartOn) (e : EngineEvent) : Bool :=
  match e with
  | .logLine .critical => ro.critical
  | .logLine .error => ro.error
  | .logLine .warning => ro.warning
  | .processExit => ro.process_exit
  | _ => false

/-- Modelled from the spec: the restart-cap check of section 4.3.  If
`max_restarts` is set and `restart_count` would exceed it after one more
restart, the engine moves to `error` and emits a critical watcher-sourced
LogEntry explaining why; otherwise it moves to `restarting`. -/
def tryRestart (cfg : EngineConfig) (s : EngineState) :
    EngineState × List LogEntry :=
  match cfg.max_restarts with
  | some n =>
    if n < s.restartCount + 1 then
      ({ s with status := .error },
        [⟨"", .critical, .watcher,
          "max restarts reached, entering error state"⟩])
    else ({ s with status := .restarting }, [])
  | none => ({ s with status := .restarting }, [])

/-- Modelled from the spec: one step of the RestartPolicyEngine state
machine (spec section 4.3), absent from `src/`.  The step consumes one
event and returns the next state together with the watcher-sourced log
entries emitted by the transition.  From `running`: a stop command goes to
`stopping`; a restart command, the hourly auto-restart, or a triggering
condition under the `restart_on` flags goes through the restart-cap check;
an unexpected exit with `process_exit` false is a silent stop to
`stopped`; a non-triggering log line is ignored.  `restarting` completes
into `starting` and increments `restart_count` by one; `starting` resolves
by spawn outcome (failure emits a critical watcher log); `stopping`
completes into `stopped`; `error` is terminal until an explicit user
restart command.  Any other event leaves the state unchanged. -/
def engineStep (cfg : EngineConfig) (s : EngineState) (e : EngineEvent) :
    EngineState × List LogEntry :=
  match s.status, e with
  | .stopped, .startCmd => ({ s with status := .starting }, [])
  | .stopped, .restartCmd => ({ s with status := .starting }, [])
  | .starting, .spawnOk => ({ s with status := .running }, [])
  | .starting, .spawnFailed =>
    ({ s with status := .error },
      [⟨"", .critical, .watcher, "failed to spawn server process"⟩])
  | .running, .stopCmd => ({ s with status := .stopping }, [])
  | .running, .restartCmd => tryRestart cfg s
  | .running, .autoRestartDue => tryRestart cfg s
  | .running, .logLine sev =>
    if triggersRestart cfg.restart_on (.logLine sev) then tryRestart cfg s
    else (s, [])
  | .running, .processExit =>
    if cfg.restart_on.process_exit then tryRestart cfg s
    else ({ s with status := .stopped }, [])
  | .restarting, .restartCycleDone =>
    ({ status := .starting, restartCount := s.restartCount + 1 }, [])
  | .stopping, .stopDone => ({ s with status := .stopped }, [])
  | .error, .restartCmd => ({ s with status := .starting }, [])
  | _, _ => (s, [])

/-- Folding `engineStep` over a sequence of events, discarding the emitted
log entries: the state reached after the whole sequence. -/
def engineRun (cfg : EngineConfig) (s : EngineState)
    (events : List EngineEvent) : EngineState :=
  events.foldl (fun st e => (engineStep cfg st e).1) s

/-- JS `arr.slice(-n)`: the last `n` elements of the list (the whole list
when it has fewer than `n` elements). -/
def sliceLast (n : Nat) (l : List LogEntry) : List LogEntry :=
  l.drop (l.length - n)

/-- Translated from the dashboard onMessage handler, case "log", in
`src/unnamed/part_003`: the retained log list is updated by
`state.logs = [...state.logs.slice(-999), data.data]` — the last 999
retained entries followed by the newly arrived one. -/
def appendLog (logs : List LogEntry) (entry : LogEntry) : List LogEntry :=
  sliceLast 999 logs ++ [entry]

/-- The structured result every command returns (spec section 6):
a success flag and an optional message. -/
structure CmdResult where
  success : Bool
  message : Option String
  deriving DecidableEq, Repr

/-- Modelled from the spec: the `delete_backup` command (spec section 6),
whose implementation is in the Tauri backend, absent from `src/` (the UI
only invokes `delete_backup_cmd` in `src/unnamed/part_002`).  The backup
folder is modelled as the list of filenames it contains; deletion removes
every entry with the given name and reports success whether or not the
file existed (idempotent no-op on a missing file). -/
def delete_backup (folder : List String) (filename : String) :
    List String × CmdResult :=
  (folder.filter (fun f => !(f == filename)), ⟨true, none⟩)

/-- The thresholds of the `resources` config section (spec section 3):
CPU percent and memory MB. -/
structure Thresholds where
  cpu_threshold_percent : Nat
  memory_threshold_mb : Nat
  deriving DecidableEq, Repr

/-- Edge-detector state of the ResourceMonitor: whether the previous
sample was above threshold, per metric. -/
structure MonitorFlags where
  cpuAbove : Bool
  memAbove : Bool
  deriving DecidableEq, Repr

/-- One stats sample as the threshold check sees it: CPU percent and
resident memory in MB. -/
structure ResourceSample where
  cpu_percent : Nat
  memory_mb : Nat
  deriving DecidableEq, Repr

/-- A threshold-breach notification sent to the RestartPolicyEngine,
tagged with the metric that crossed. -/
inductive Breach
  | cpu
  | mem
  deriving DecidableEq, Repr

/-- Modelled from the spec: one sampling step of the ResourceMonitor's
threshold check (spec section 4.4), absent from `src/`.  A breach
notification for a metric is emitted only when the value is above its
threshold and was not above it at the previous sample (edge-triggered,
not level-triggered); the flags are then set from the current
comparison. -/
def monitorStep (th : Thresholds) (st : MonitorFlags) (smp : ResourceSample) :
    MonitorFlags × List Breach :=
  let cpuNow : Bool := decide (th.cpu_threshold_percent < smp.cpu_percent)
  let memNow : Bool := decide (th.memory_threshold_mb < smp.memory_mb)
  (⟨cpuNow, memNow⟩,
    (if cpuNow && !st.cpuAbove then [Breach.cpu] else []) ++
      (if memNow && !st.memAbove then [Breach.mem] else []))

/-- Running the monitor over a sequence of samples, collecting every
emitted breach notification in order. -/
def monitorRun (th : Thresholds) (st : MonitorFlags) :
    List ResourceSample → MonitorFlags × List Breach
  | [] => (st, [])
  | smp :: rest =>
    let first := monitorStep th st smp
    let later := monitorRun th first.1 rest
    (later.1, first.2 ++ later.2)

/-- A backup archive as the retention pass sees it: its filename and its
creation day (whole days, compared against today). -/
structure Archive where
  filename : String
  created_day : Nat
  deriving DecidableEq, Repr

/-- Modelled from the spec: the retention pass of the BackupScheduler
(spec section 4.5), absent from `src/`.  After a successful run it deletes
the archives in the backup folder older than `retention_days` and keeps
every other archive in place. -/
def cleanupPass (today retention_days : Nat) (archives : List Archive) :
    List Archive :=
  archives.filter (fun a => decide (today - a.created_day ≤ retention_days))

/-- Translated from `StatsData` in `web-ui/src/lib/types.ts`: the stored
stats record with seven fields; JS numbers are modelled as rationals. -/
structure StatsData where
  cpu_percent : ℚ
  memory_mb : ℚ
  memory_percent : ℚ
  network_rx_speed : ℚ
  network_tx_speed : ℚ
  disk_read_speed : ℚ
  disk_write_speed : ℚ
  deriving DecidableEq, Repr

/-- Translated from the `StatsEvent` interface in `src/unnamed/part_002`:
the payload of a `server-stats` event, which carries all seven rates,
including the disk read/write rates. -/
structure StatsEvent where
  cpu_percent : ℚ
  memory_mb : ℚ
  memory_percent : ℚ
  network_rx_speed : ℚ
  network_tx_speed : ℚ
  disk_read_speed : ℚ
  disk_write_speed : ℚ
  deriving DecidableEq, Repr

/-- Translated from the dashboard onMessage handler, case "stats", in
`src/unnamed/part_003`: the stored record is rebuilt by spreading the old
record and overwriting exactly cpu_percent, memory_mb, memory_percent,
network_rx_speed and network_tx_speed from the event payload. -/
def handleStatsEvent (stats : StatsData) (data : StatsEvent) : StatsData :=
  { stats with
    cpu_percent := data.cpu_percent
    memory_mb := data.memory_mb
    memory_percent := data.memory_percent
    network_rx_speed := data.network_rx_speed
    network_tx_speed := data.network_tx_speed }

/-- JS `s.padStart(2, "0")`: left-pad with zeros to a minimum width of
two characters. -/
def padStart2 (s : String) : String :=
  (List.replicate (2 - s.length) '0').asString ++ s

/-- Translated from `formatUptime` in `src/unnamed/part_002`: hours are
`floor(seconds / 3600)`, minutes `floor((seconds % 3600) / 60)`, seconds
`seconds % 60`, each rendered zero-padded to width two and joined with
colons. -/
def formatUptime (seconds : Nat) : String :=
  let hours := seconds / 3600
  let minutes := (seconds % 3600) / 60
  let secs := seconds % 60
  padStart2 (toString hours) ++ ":" ++ padStart2 (toString minutes) ++ ":"
    ++ padStart2 (toString secs)

/-- C1: classification severity precedence.  For every line and pattern
configuration: a line containing a critical pattern is classified
`critical` even when it also contains an errors or warnings pattern; with
no critical match the errors list is decisive, then warnings, and a line
matching no list is `info`. -/
theorem classify_precedence (pats : ErrorPatterns) (line : String) :
    ((∃ p ∈ pats.critical, containsCI line p = true) →
      classify pats line = .critical) ∧
    ((∀ p ∈ pats.critical, containsCI line p = false) →
      (∃ p ∈ pats.errors, containsCI line p = true) →
      classify pats line = .error) ∧
    ((∀ p ∈ pats.critical, containsCI line p = false) →
      (∀ p ∈ pats.errors, containsCI line p = false) →
      (∃ p ∈ pats.warnings, containsCI line p = true) →
      classify pats line = .warning) ∧
    ((∀ p ∈ pats.critical, containsCI line p = false) →
      (∀ p ∈ pats.errors, containsCI line p = false) →
      (∀ p ∈ pats.warnings, containsCI line p = false) →
      classify pats line = .info) := by
  have hany : ∀ (l : List String),
      l.any (containsCI line) = true ↔ ∃ p ∈ l, containsCI line p = true := by
    intro l; exact List.any_eq_true
  have hnone : ∀ (l : List String),
      (∀ p ∈ l, containsCI line p = false) → l.any (containsCI line) = false := by
    intro l h
    rw [List.any_eq_false]
    intro p hp
    simp [h p hp]
  refine ⟨?_, ?_, ?_, ?_⟩
  · intro h
    unfold classify
    rw [(hany pats.critical).mpr h]
    rfl
  · intro hc he
    unfold classify
    rw [hnone pats.critical hc, (hany pats.errors).mpr he]
    rfl
  · intro hc he hw
    unfold classify
    rw [hnone pats.critical hc, hnone pats.errors he,
      (hany pats.warnings).mpr hw]
    rfl
  · intro hc he hw
    unfold classify
    rw [hnone pats.critical hc, hnone pats.errors he, hnone pats.warnings hw]
    rfl

/-- Witness for C1 at a concrete configuration: the line
"FATAL error low disk" contains the critical pattern "fatal" as well as an
errors pattern and a warnings pattern, and is classified `critical`. -/
theorem classify_precedence_witness :
    (∃ p ∈ ["fatal"], containsCI "FATAL error low disk" p = true) ∧
    classify ⟨["fatal"], ["error"], ["low disk"]⟩ "FATAL error low disk" = .critical := by
  have h : ∃ p ∈ ["fatal"], containsCI "FATAL error low disk" p = true := by decide
  exact ⟨h,
    (classify_precedence ⟨["fatal"], ["error"], ["low disk"]⟩ "FATAL error low disk").1 h⟩

/-- A single engine step never decreases `restartCount`. -/
theorem engineStep_count_mono (cfg : EngineConfig) (s : EngineState)
    (e : EngineEvent) : s.restartCount ≤ (engineStep cfg s e).1.restartCount := by
  rcases s with ⟨st, n⟩
  cases st <;> cases e <;>
    simp only [engineStep, tryRestart] <;>
    (repeat' split) <;> simp

/-- C2: restart-cap exhaustion.  With `max_restarts = some n`, once
`restart_count` has reached `n`, any further triggering condition in
`running` (a critical/error/warning log line or an unexpected exit whose
`restart_on` flag is set) moves the engine to `error` rather than
`restarting`, leaves the counter unchanged, and emits a critical
watcher-sourced LogEntry explaining why. -/
theorem restart_cap_exhausted (cfg : EngineConfig) (s : EngineState)
    (e : EngineEvent) (n : Nat)
    (hs : s.status = .running)
    (hc : cfg.max_restarts = some n)
    (hn : n ≤ s.restartCount)
    (ht : triggersRestart cfg.restart_on e = true) :
    (engineStep cfg s e).1.status = .error ∧
    (engineStep cfg s e).1.restartCount = s.restartCount ∧
    ∃ entry ∈ (engineStep cfg s e).2,
      entry.level = .critical ∧ entry.source = .watcher := by
  rcases s with ⟨st, cnt⟩
  simp only [EngineState.status] at hs
  subst hs
  simp only [EngineState.restartCount] at hn ⊢
  cases e <;> simp_all [engineStep, triggersRestart, tryRestart] <;>
    (try rw [if_pos (by omega)]) <;> simp

/-- Witness for C2: with a cap of 2 restarts already used up, a critical
log line in `running` drives the engine to `error`, keeps the counter at
2, and emits a critical watcher log entry. -/
theorem restart_cap_exhausted_witness :
    (engineStep ⟨some 2, ⟨true, true, true, true⟩⟩ ⟨.running, 2⟩
        (.logLine .critical)).1.status = .error ∧
    (engineStep ⟨some 2, ⟨true, true, true, true⟩⟩ ⟨.running, 2⟩
        (.logLine .critical)).1.restartCount =
      (⟨.running, 2⟩ : EngineState).restartCount ∧
    ∃ entry ∈ (engineStep ⟨some 2, ⟨true, true, true, true⟩⟩ ⟨.running, 2⟩
        (.logLine .critical)).2,
      entry.level = .critical ∧ entry.source = .watcher :=
  restart_cap_exhausted ⟨some 2, ⟨true, true, true, true⟩⟩ ⟨.running, 2⟩
    (.logLine .critical) 2 rfl rfl (by decide) rfl

/-- C3: `restart_count` is monotone and counts completed restart cycles.
Across any sequence of engine steps the counter never decreases; the step
completing a pass through `restarting` increases it by exactly 1; and
every other step leaves it unchanged, so no restart ever resets it. -/
theorem restart_count_monotone :
    (∀ (cfg : EngineConfig) (s : EngineState) (events : List EngineEvent),
      s.restartCount ≤ (engineRun cfg s events).restartCount) ∧
    (∀ (cfg : EngineConfig) (s : EngineState), s.status = .restarting →
      (engineStep cfg s .restartCycleDone).1.restartCount = s.restartCount + 1) ∧
    (∀ (cfg : EngineConfig) (s : EngineState) (e : EngineEvent),
      ¬(s.status = .restarting ∧ e = .restartCycleDone) →
      (engineStep cfg s e).1.restartCount = s.restartCount) := by
  refine ⟨?_, ?_, ?_⟩
  · intro cfg s events
    induction events generalizing s with
    | nil => exact Nat.le_refl _
    | cons e rest ih =>
      exact Nat.le_trans (engineStep_count_mono cfg s e) (ih _)
  · intro cfg s hs
    rcases s with ⟨st, cnt⟩
    simp only [EngineState.status] at hs
    subst hs
    simp [engineStep]
  · intro cfg s e hne
    rcases s with ⟨st, cnt⟩
    cases st <;> cases e <;>
      simp_all [engineStep, tryRestart] <;>
      (repeat' split) <;> simp

/-- Witness for C3: a completed restart cycle takes the counter from 3 to
4; a stop command in `running` leaves the counter at 5; and a concrete
event sequence never decreases it. -/
theorem restart_count_monotone_witness :
    (⟨.running, 1⟩ : EngineState).restartCount ≤
      (engineRun ⟨none, ⟨true, true, true, true⟩⟩ ⟨.running, 1⟩
        [.logLine .critical, .restartCycleDone, .spawnOk]).restartCount ∧
    (engineStep ⟨none, ⟨true, true, true, true⟩⟩ ⟨.restarting, 3⟩
        .restartCycleDone).1.restartCount = 3 + 1 ∧
    (engineStep ⟨none, ⟨true, true, true, true⟩⟩ ⟨.running, 5⟩
        .stopCmd).1.restartCount = 5 :=
  ⟨restart_count_monotone.1 ⟨none, ⟨true, true, true, true⟩⟩ ⟨.running, 1⟩
    [.logLine .critical, .restartCycleDone, .spawnOk],
   restart_count_monotone.2.1 ⟨none, ⟨true, true, true, true⟩⟩ ⟨.restarting, 3⟩ rfl,
   restart_count_monotone.2.2 ⟨none, ⟨true, true, true, true⟩⟩ ⟨.running, 5⟩
    .stopCmd (by decide)⟩

/-- C8: silent stop on unexpected exit.  When the child exits unexpectedly
in `running` and the `restart_on.process_exit` flag is false, the engine
goes to `stopped` (not `restarting`, not `error`), leaves `restart_count`
unchanged, and emits no log entry. -/
theorem unexpected_exit_silent_stop (cfg : EngineConfig) (s : EngineState)
    (hs : s.status = .running)
    (hf : cfg.restart_on.process_exit = false) :
    (engineStep cfg s .processExit).1.status = .stopped ∧
    (engineStep cfg s .processExit).1.restartCount = s.restartCount ∧
    (engineStep cfg s .processExit).2 = [] := by
  rcases s with ⟨st, cnt⟩
  simp only [EngineState.status] at hs
  subst hs
  simp [engineStep, hf]

/-- Witness for C8: with `process_exit = false`, an unexpected exit in
`running` moves the engine to `stopped`, keeps the counter at 1, and
emits nothing. -/
theorem unexpected_exit_silent_stop_witness :
    (engineStep ⟨some 5, ⟨true, true, false, false⟩⟩ ⟨.running, 1⟩
        .processExit).1.status = .stopped ∧
    (engineStep ⟨some 5, ⟨true, true, false, false⟩⟩ ⟨.running, 1⟩
        .processExit).1.restartCount = (⟨.running, 1⟩ : EngineState).restartCount ∧
    (engineStep ⟨some 5, ⟨true, true, false, false⟩⟩ ⟨.running, 1⟩
        .processExit).2 = [] :=
  unexpected_exit_silent_stop ⟨some 5, ⟨true, true, false, false⟩⟩
    ⟨.running, 1⟩ rfl rfl

/-- C4: bounded log retention.  Appending an incoming log event keeps at
most 1000 entries; the updated list is a contiguous suffix of the old
list followed by the new entry (relative order preserved, only oldest
entries evicted); below capacity nothing is evicted; at or above 999 old
entries the updated list has exactly 1000. -/
theorem log_buffer_bounded (logs : List LogEntry) (entry : LogEntry) :
    (appendLog logs entry).length ≤ 1000 ∧
    (appendLog logs entry) <:+ (logs ++ [entry]) ∧
    (logs.length ≤ 999 → appendLog logs entry = logs ++ [entry]) ∧
    (999 ≤ logs.length → (appendLog logs entry).length = 1000) := by
  refine ⟨?_, ?_, ?_, ?_⟩
  · simp [appendLog, sliceLast]
    omega
  · obtain ⟨t, ht⟩ := List.drop_suffix (logs.length - 999) logs
    refine ⟨t, ?_⟩
    rw [appendLog, sliceLast, ← List.append_assoc, ht]
  · intro h
    have h0 : logs.length - 999 = 0 := by omega
    simp [appendLog, sliceLast, h0]
  · intro h
    simp [appendLog, sliceLast]
    omega

/-- Witness for C4: appending to a two-entry list keeps both entries and
adds the new one at the end. -/
theorem log_buffer_bounded_witness :
    (appendLog [⟨"t1", .info, .server, "a"⟩, ⟨"t2", .error, .stderr, "b"⟩]
        ⟨"t3", .critical, .watcher, "c"⟩).length ≤ 1000 ∧
    (appendLog [⟨"t1", .info, .server, "a"⟩, ⟨"t2", .error, .stderr, "b"⟩]
        ⟨"t3", .critical, .watcher, "c"⟩) <:+
      ([⟨"t1", .info, .server, "a"⟩, ⟨"t2", .error, .stderr, "b"⟩] ++
        [⟨"t3", .critical, .watcher, "c"⟩]) ∧
    appendLog [⟨"t1", .info, .server, "a"⟩, ⟨"t2", .error, .stderr, "b"⟩]
        ⟨"t3", .critical, .watcher, "c"⟩ =
      [⟨"t1", .info, .server, "a"⟩, ⟨"t2", .error, .stderr, "b"⟩] ++
        [⟨"t3", .critical, .watcher, "c"⟩] :=
  have h := log_buffer_bounded
    [⟨"t1", .info, .server, "a"⟩, ⟨"t2", .error, .stderr, "b"⟩]
    ⟨"t3", .critical, .watcher, "c"⟩
  ⟨h.1, h.2.1, h.2.2.1 (by decide)⟩

/-- C5: `delete_backup` is idempotent.  Deleting a filename absent from
the backup folder returns success and leaves the folder unchanged, and a
second delete of an already-deleted file also returns success and leaves
the folder unchanged. -/
theorem delete_backup_idempotent (folder : List String) (filename : String) :
    (filename ∉ folder →
      delete_backup folder filename = (folder, ⟨true, none⟩)) ∧
    delete_backup (delete_backup folder filename).1 filename =
      ((delete_backup folder filename).1, ⟨true, none⟩) := by
  constructor
  · intro h
    simp only [delete_backup, Prod.mk.injEq, and_true]
    rw [List.filter_eq_self]
    intro a ha
    simp
    exact fun heq => h (heq ▸ ha)
  · simp only [delete_backup, Prod.mk.injEq, and_true]
    rw [List.filter_eq_self]
    intro a ha
    exact (List.mem_filter.mp ha).2

/-- Witness for C5: deleting "b.tar.xz", which is not in the folder,
succeeds and leaves the folder unchanged; deleting it again after the
first delete also succeeds and changes nothing. -/
theorem delete_backup_idempotent_witness :
    delete_backup ["a.tar.xz"] "b.tar.xz" = (["a.tar.xz"], ⟨true, none⟩) ∧
    delete_backup (delete_backup ["a.tar.xz"] "b.tar.xz").1 "b.tar.xz" =
      ((delete_backup ["a.tar.xz"] "b.tar.xz").1, ⟨true, none⟩) :=
  have h := delete_backup_idempotent ["a.tar.xz"] "b.tar.xz"
  ⟨h.1 (by decide), h.2⟩

/-- Once the flag records that CPU was already above threshold, a run of
samples all above threshold emits no further CPU breach notification. -/
theorem monitorRun_cpu_quiet (th : Thresholds) (st : MonitorFlags)
    (samples : List ResourceSample)
    (hab : ∀ smp ∈ samples, th.cpu_threshold_percent < smp.cpu_percent)
    (hst : st.cpuAbove = true) :
    (monitorRun th st samples).2.count Breach.cpu = 0 := by
  induction samples generalizing st with
  | nil => simp [monitorRun]
  | cons smp rest ih =>
    have h1 := hab smp (List.mem_cons_self _ _)
    simp only [monitorRun, List.count_append, monitorStep, hst, h1]
    rw [ih _ (fun x hx => hab x (List.mem_cons_of_mem _ hx)) (by simp [h1])]
    simp
    split <;> simp

/-- Once the flag records that memory was already above threshold, a run
of samples all above threshold emits no further memory breach
notification. -/
theorem monitorRun_mem_quiet (th : Thresholds) (st : MonitorFlags)
    (samples : List ResourceSample)
    (hab : ∀ smp ∈ samples, th.memory_threshold_mb < smp.memory_mb)
    (hst : st.memAbove = true) :
    (monitorRun th st samples).2.count Breach.mem = 0 := by
  induction samples generalizing st with
  | nil => simp [monitorRun]
  | cons smp rest ih =>
    have h1 := hab smp (List.mem_cons_self _ _)
    simp only [monitorRun, List.count_append, monitorStep, hst, h1]
    rw [ih _ (fun x hx => hab x (List.mem_cons_of_mem _ hx)) (by simp [h1])]
    simp
    split <;> simp

/-- C6: threshold-breach reporting is edge-triggered.  Starting with the
metric not above threshold, a nonempty run of consecutive samples that are
all above threshold yields exactly one breach notification for that
metric, and it is emitted at the first sample of the run; the same holds
for CPU and for memory. -/
theorem breach_edge_triggered (th : Thresholds) (st : MonitorFlags)
    (smp : ResourceSample) (rest : List ResourceSample) :
    ((∀ x ∈ smp :: rest, th.cpu_threshold_percent < x.cpu_percent) →
      st.cpuAbove = false →
      (monitorRun th st (smp :: rest)).2.count Breach.cpu = 1 ∧
      (monitorStep th st smp).2.count Breach.cpu = 1) ∧
    ((∀ x ∈ smp :: rest, th.memory_threshold_mb < x.memory_mb) →
      st.memAbove = false →
      (monitorRun th st (smp :: rest)).2.count Breach.mem = 1 ∧
      (monitorStep th st smp).2.count Breach.mem = 1) := by
  constructor
  · intro hab hst
    have h1 := hab smp (List.mem_cons_self _ _)
    have hfirst : (monitorStep th st smp).2.count Breach.cpu = 1 := by
      simp [monitorStep, hst, h1]
      split <;> simp
    refine ⟨?_, hfirst⟩
    simp only [monitorRun, List.count_append, hfirst]
    rw [monitorRun_cpu_quiet th _ rest
      (fun x hx => hab x (List.mem_cons_of_mem _ hx)) (by simp [monitorStep, h1])]
  · intro hab hst
    have h1 := hab smp (List.mem_cons_self _ _)
    have hfirst : (monitorStep th st smp).2.count Breach.mem = 1 := by
      simp [monitorStep, hst, h1]
      split <;> simp
    refine ⟨?_, hfirst⟩
    simp only [monitorRun, List.count_append, hfirst]
    rw [monitorRun_mem_quiet th _ rest
      (fun x hx => hab x (List.mem_cons_of_mem _ hx)) (by simp [monitorStep, h1])]

/-- Witness for C6: with a CPU threshold of 80, ten consecutive samples at
95 percent starting from a not-above state yield exactly one CPU breach
notification, not ten. -/
theorem breach_edge_triggered_witness :
    (monitorRun ⟨80, 4096⟩ ⟨false, false⟩
      (List.replicate 10 ⟨95, 100⟩)).2.count Breach.cpu = 1 :=
  ((breach_edge_triggered ⟨80, 4096⟩ ⟨false, false⟩ ⟨95, 100⟩
    (List.replicate 9 ⟨95, 100⟩)).1 (by decide) rfl).1

/-- C7: the retention pass keeps exactly the archives whose age does not
exceed `retention_days` and deletes the others; in particular with
archives from today, five days ago and fifteen days ago and a retention
of 10 days, exactly the fifteen-day-old archive is removed. -/
theorem retention_pass_exact :
    (∀ (today retention : Nat) (archives : List Archive) (a : Archive),
      a ∈ cleanupPass today retention archives ↔
        a ∈ archives ∧ today - a.created_day ≤ retention) ∧
    cleanupPass 100 10 [⟨"backup-day100", 100⟩, ⟨"backup-day95", 95⟩,
        ⟨"backup-day85", 85⟩] =
      [⟨"backup-day100", 100⟩, ⟨"backup-day95", 95⟩] := by
  constructor
  · intro today ret archives a
    simp [cleanupPass, List.mem_filter]
  · rfl

/-- C9: frame effect of the stats handler.  Handling a stats event copies
exactly the five fields cpu_percent, memory_mb, memory_percent,
network_rx_speed and network_tx_speed from the payload and leaves
disk_read_speed and disk_write_speed at their previous values, even
though the payload carries disk rates. -/
theorem stats_event_frame (stats : StatsData) (data : StatsEvent) :
    (handleStatsEvent stats data).cpu_percent = data.cpu_percent ∧
    (handleStatsEvent stats data).memory_mb = data.memory_mb ∧
    (handleStatsEvent stats data).memory_percent = data.memory_percent ∧
    (handleStatsEvent stats data).network_rx_speed = data.network_rx_speed ∧
    (handleStatsEvent stats data).network_tx_speed = data.network_tx_speed ∧
    (handleStatsEvent stats data).disk_read_speed = stats.disk_read_speed ∧
    (handleStatsEvent stats data).disk_write_speed = stats.disk_write_speed :=
  ⟨rfl, rfl, rfl, rfl, rfl, rfl, rfl⟩

/-- Padding to width two always yields at least two characters. -/
theorem padStart2_min_length (s : String) : 2 ≤ (padStart2 s).length := by
  have h1 : ∀ (l : List Char), (l.asString).length = l.length := fun l => rfl
  have h2 : ∀ (a b : String), (a ++ b).length = a.length + b.length :=
    fun a b => String.length_append a b
  rw [padStart2, h2, h1, List.length_replicate]
  omega

/-- C10: `formatUptime` displays the exact decomposition of the uptime.
For every natural number of seconds there are hours, minutes and seconds
components, each rendered zero-padded to at least two characters and
joined by colons, with `s = 3600 * h + 60 * m + sec`, `m < 60` and
`sec < 60` — the displayed components reconstruct the input exactly. -/
theorem formatUptime_reconstructs (s : Nat) :
    ∃ h m sec : Nat,
      formatUptime s =
        padStart2 (toString h) ++ ":" ++ padStart2 (toString m) ++ ":"
          ++ padStart2 (toString sec) ∧
      s = 3600 * h + 60 * m + sec ∧ m < 60 ∧ sec < 60 ∧
      2 ≤ (padStart2 (toString h)).length ∧
      2 ≤ (padStart2 (toString m)).length ∧
      2 ≤ (padStart2 (toString sec)).length :=
  ⟨s / 3600, s % 3600 / 60, s % 60, rfl, by omega, by omega, by omega,
    padStart2_min_length _, padStart2_min_length _, padStart2_min_length _⟩

end Watcher
